import Mathlib

/-!
Verification development for the wavemap point-cloud ingestion pipeline
(`wavemap_ros/src/input_handler/pointcloud_input_handler.cc`).

Shallow embedding conventions:
* Timestamps are exact integer nanoseconds (`Nat` for the unsigned 64-bit
  values held in `GenericStampedPointcloud`, `Int` for differences).  The
  source compares ROS-time differences in seconds as floating point
  (`(t1 - t2).toSec() < max_wait_for_pose`); we model both sides of this
  comparison in exact nanoseconds (`maxWaitForPoseNs`), abstracting the
  float rounding, which no claim here depends on.
* The transform buffer (`TfTransformer`), the undistorter
  (`PointcloudUndistorter`) and the integrators are external collaborators
  of this translation unit; they enter the model as an environment `Env`
  of oracle functions, and the dispatcher's observable actions are
  recorded as an event trace.
* Fallible C++ paths become `Option`/`Except`; container accesses become
  `Option`-returning indexing, so every definition is total and
  executable.
-/

/-- A 3D point position. The source stores `float` coordinates; no claim
performs arithmetic on coordinates, so the carrier is modelled as an exact
integer triple carried through unchanged. -/
abbrev Point3 : Type := Int × Int × Int

/-- One point of a `GenericStampedPointcloud`: a position plus the
per-point time offset from the cloud's timebase, in nanoseconds
(`emplace(x, y, z, offset)` in the callbacks). -/
structure GenericPoint where
  position : Point3
  offset : Nat
deriving DecidableEq, Repr

/-- The transport-agnostic stamped cloud the producers enqueue
(`GenericStampedPointcloud` in the source; the class body lives outside
this translation unit, so its fields follow the spec's data model:
timebase, sensor frame, ordered points with per-point offsets). -/
structure GenericStampedPointcloud where
  timebase : Nat
  sensor_frame : String
  points : List GenericPoint
deriving DecidableEq, Repr

namespace GenericStampedPointcloud

/-- Accessor `getTimeBase()`. -/
def getTimeBase (c : GenericStampedPointcloud) : Nat := c.timebase

/-- Accessor `getSensorFrame()`. -/
def getSensorFrame (c : GenericStampedPointcloud) : String := c.sensor_frame

/-- Modelled from the spec: `start_time = timebase` (the accessor
`getStartTime()` is declared outside this translation unit). -/
def getStartTime (c : GenericStampedPointcloud) : Nat := c.timebase

/-- Modelled from the spec: `end_time = timebase + max(offset)` (the
accessor `getEndTime()` is declared outside this translation unit). -/
def getEndTime (c : GenericStampedPointcloud) : Nat :=
  c.timebase + (c.points.map GenericPoint.offset).foldr max 0

end GenericStampedPointcloud

/-- A rigid transform (`Transformation3D`); opaque to this pipeline, so it
is modelled as a token the oracles hand out and the dispatcher passes on. -/
structure Pose where
  id : Nat
deriving DecidableEq, Repr

/-- A cloud bound to a single pose (`PosedPointcloud<>`): one transform
plus the ordered point positions. -/
structure PosedPointcloud where
  pose : Pose
  points : List Point3
deriving DecidableEq, Repr

/-- The non-success outcomes of `PointcloudUndistorter::undistortPointcloud`
(`PointcloudUndistorter::Result` minus `kSuccess`; `unknown` stands for the
`default:` arm of the dispatcher's switch). -/
inductive UndistortError where
  | endTimeNotInTfBuffer
  | startTimeNotInTfBuffer
  | intermediateTimeNotInTfBuffer
  | unknown
deriving DecidableEq, Repr

instance {ε α : Type} [DecidableEq ε] [DecidableEq α] :
    DecidableEq (Except ε α) := fun x y =>
  match x, y with
  | .ok a, .ok b =>
    if h : a = b then .isTrue (by rw [h]) else .isFalse (by simp [h])
  | .error e, .error f =>
    if h : e = f then .isTrue (by rw [h]) else .isFalse (by simp [h])
  | .ok _, .error _ => .isFalse (by simp)
  | .error _, .ok _ => .isFalse (by simp)

/-- Observable actions of one `processQueue` invocation, in program order:
integrator calls, the debug publications, and queue pops. -/
inductive Event where
  | integrate (integrator : Nat) (pc : PosedPointcloud)
  | publishReprojected (pc : PosedPointcloud)
  | publishRangeImage
  | pop (cloud : GenericStampedPointcloud)
deriving DecidableEq, Repr

/-- The external collaborators of the dispatcher, as oracles:
`undistort` is `pointcloud_undistorter_.undistortPointcloud` (returning the
posed cloud on success), `lookupTransform` is
`transformer_->lookupTransform(world_frame_, frame, time, T)` with the
world frame fixed, `integrators` are the registered integrator identities
in registration order, and the three debug flags model
`shouldPublishReprojectedPointcloud()` and the gate of
`publishProjectedRangeImage` (subscriber present, first integrator is
projective and currently holds a range image).  `newestBufferedTimestamp`
is the transform buffer's newest stamp (spec §6); `processQueue` itself
never consults it. -/
structure Env where
  undistort : GenericStampedPointcloud → Except UndistortError PosedPointcloud
  lookupTransform : String → Nat → Option Pose
  integrators : List Nat
  shouldPublishReprojected : Bool
  shouldPublishRange : Bool
  rangeImageAvailable : Bool
  newestBufferedTimestamp : Int

/-- The configuration fields of `PointcloudInputHandlerConfig` that the
modelled code paths read.  `maxWaitForPoseNs` and `timeOffsetNs` are
`max_wait_for_pose` and `time_offset` expressed in exact nanoseconds. -/
structure Config where
  maxWaitForPoseNs : Int
  timeOffsetNs : Int
  undistort_motion : Bool
  sensor_frame_id : String

/-- The debug publications after a successful integration (source lines
219-236): the reprojected cloud when a subscriber exists, then the
projected range image when its gate passes.  The publication timestamps
(`getMedianTime()`) are not modelled; no claim concerns them. -/
def debugEvents (env : Env) (pc : PosedPointcloud) : List Event :=
  (if env.shouldPublishReprojected then [Event.publishReprojected pc] else []) ++
  (if env.shouldPublishRange && env.rangeImageAvailable then [Event.publishRangeImage] else [])

/-- The trace one successfully resolved cloud produces (source lines
204-239): one `integrate` per registered integrator in registration order,
then the debug publications, then the pop. -/
def successEvents (env : Env) (oldest : GenericStampedPointcloud)
    (pc : PosedPointcloud) : List Event :=
  env.integrators.map (fun i => Event.integrate i pc) ++ debugEvents env pc ++
    [Event.pop oldest]

/-- `PointcloudInputHandler::processQueue` (source lines 116-241).  The
queue is a front-at-head list; the result is the queue left behind and the
event trace of the invocation.  Branch by branch:
* `undistort_motion` set: run the undistorter on the head.  On
  `kEndTimeNotInTfBuffer`, defer (return, leaving the queue untouched)
  while `back.getTimeBase() - head.getEndTime() < max_wait_for_pose`,
  else pop and continue; on every other failure pop and continue; on
  success integrate, publish, pop, continue.
* `undistort_motion` clear: one direct lookup at the head's timebase; on
  failure defer while `back.getTimeBase() - head.getTimeBase() <
  max_wait_for_pose`, else pop and continue; on success bind the head's
  point positions, unmodified and in order, to the looked-up pose, then
  integrate, publish, pop, continue. -/
def processQueue (env : Env) (cfg : Config) :
    List GenericStampedPointcloud →
      List GenericStampedPointcloud × List Event
  | [] => ([], [])
  | oldest :: rest =>
    let newest := rest.getLastD oldest
    if cfg.undistort_motion then
      match env.undistort oldest with
      | .ok posed =>
        let next := processQueue env cfg rest
        (next.1, successEvents env oldest posed ++ next.2)
      | .error UndistortError.endTimeNotInTfBuffer =>
        if (newest.getTimeBase : Int) - (oldest.getEndTime : Int) <
            cfg.maxWaitForPoseNs then
          (oldest :: rest, [])
        else
          let next := processQueue env cfg rest
          (next.1, Event.pop oldest :: next.2)
      | .error _ =>
        let next := processQueue env cfg rest
        (next.1, Event.pop oldest :: next.2)
    else
      match env.lookupTransform oldest.getSensorFrame oldest.getTimeBase with
      | some pose =>
        let posed : PosedPointcloud :=
          ⟨pose, oldest.points.map GenericPoint.position⟩
        let next := processQueue env cfg rest
        (next.1, successEvents env oldest posed ++ next.2)
      | none =>
        if (newest.getTimeBase : Int) - (oldest.getTimeBase : Int) <
            cfg.maxWaitForPoseNs then
          (oldest :: rest, [])
        else
          let next := processQueue env cfg rest
          (next.1, Event.pop oldest :: next.2)

/-- The queue left behind by one `processQueue` invocation. -/
def drainOnce (env : Env) (cfg : Config)
    (q : List GenericStampedPointcloud) : List GenericStampedPointcloud :=
  (processQueue env cfg q).1

/-- The posed cloud a queued cloud resolves to, when it does: the
undistorter's output when `undistort_motion` is set, otherwise the head's
point positions bound to the pose looked up at its timebase. -/
def resolvePose? (env : Env) (cfg : Config)
    (c : GenericStampedPointcloud) : Option PosedPointcloud :=
  if cfg.undistort_motion then
    match env.undistort c with
    | .ok pc => some pc
    | .error _ => none
  else
    (env.lookupTransform c.getSensorFrame c.getTimeBase).map
      (fun pose => ⟨pose, c.points.map GenericPoint.position⟩)

/-- One field descriptor of a `sensor_msgs::PointCloud2` message; only the
name takes part in the modelled validation. -/
structure PointField where
  name : String
deriving DecidableEq, Repr

/-- The parts of a `sensor_msgs::PointCloud2` message the callback reads:
dimensions, header stamp (nanoseconds) and frame, the field descriptors,
and the point positions the iterator walks (one per `height * width`). -/
structure PointCloud2 where
  height : Nat
  width : Nat
  stamp_ns : Nat
  frame_id : String
  fields : List PointField
  points : List Point3
deriving DecidableEq, Repr

/-- Index of the first field named "x"
(`std::find_if(fields.cbegin(), fields.cend(), name == "x")`). -/
def xFieldIdx? (m : PointCloud2) : Option Nat :=
  m.fields.findIdx? (fun f => f.name = "x")

/-- The field `k` places after the first "x" field, as the total,
`Option`-returning counterpart of the source's `(++x_field_iter)->name`
accesses (which in C++ read past the end when fewer than `k` fields
follow "x"). -/
def fieldAfterX? (m : PointCloud2) (k : Nat) : Option PointField :=
  (xFieldIdx? m).bind (fun i => m.fields[i + k]?)

/-- The field-layout validation of the `PointCloud2` callback (source
lines 58-71): an "x" field exists and the next two fields are "y" then
"z"; an out-of-range access counts as a mismatch. -/
def validFieldLayout (m : PointCloud2) : Bool :=
  match xFieldIdx? m with
  | none => false
  | some i =>
    match m.fields[i + 1]?, m.fields[i + 2]? with
    | some fy, some fz => fy.name == "y" && fz.name == "z"
    | _, _ => false

/-- `PointcloudInputHandler::callback(sensor_msgs::PointCloud2)` (source
lines 48-88), as a function from the current queue to the next: reject
empty messages (`height * width == 0`) and bad field layouts without
touching the queue; otherwise push one cloud whose timebase is
`header.stamp + time_offset` in nanoseconds, whose frame is the configured
override when non-empty, and whose points carry offset 0.  `toNat` models
that the ROS time sum is non-negative; claims about the timebase carry
that hypothesis explicitly. -/
def callbackPointCloud2 (cfg : Config) (m : PointCloud2)
    (queue : List GenericStampedPointcloud) :
    List GenericStampedPointcloud :=
  if m.height * m.width = 0 then queue
  else if validFieldLayout m = false then queue
  else
    let stamp_nsec := ((m.stamp_ns : Int) + cfg.timeOffsetNs).toNat
    let frame := if cfg.sensor_frame_id = "" then m.frame_id
                 else cfg.sensor_frame_id
    queue ++ [{ timebase := stamp_nsec, sensor_frame := frame,
                points := m.points.map (fun p => ⟨p, 0⟩) }]

/-- `PointcloudInputHandler::callback(sensor_msgs::PointCloud2)` once
more, with the partiality of the source made explicit: the source's
`(++x_field_iter)->name` dereferences (lines 65 and 68) become the same
`Option` lookups, but reaching a lookup past the end of `fields` — an
out-of-bounds iterator dereference, undefined behaviour in the C++ —
yields `none`; every execution the C++ defines yields `some` of the next
queue.  `callbackPointCloud2` above is the restriction of this function
to its defined executions (see `callbackPointCloud2Checked_agrees`). -/
def callbackPointCloud2Checked (cfg : Config) (m : PointCloud2)
    (queue : List GenericStampedPointcloud) :
    Option (List GenericStampedPointcloud) :=
  if m.height * m.width = 0 then some queue
  else
    match xFieldIdx? m with
    | none => some queue
    | some i =>
      match m.fields[i + 1]? with
      | none => none
      | some fy =>
        if fy.name = "y" then
          match m.fields[i + 2]? with
          | none => none
          | some fz =>
            if fz.name = "z" then
              let stamp_nsec := ((m.stamp_ns : Int) + cfg.timeOffsetNs).toNat
              let frame := if cfg.sensor_frame_id = "" then m.frame_id
                           else cfg.sensor_frame_id
              some (queue ++ [{ timebase := stamp_nsec, sensor_frame := frame,
                                points := m.points.map (fun p => ⟨p, 0⟩) }])
            else some queue
        else some queue

/-- One point of a `livox_ros_driver2::CustomMsg`: position plus the
per-point `offset_time` in nanoseconds. -/
structure CustomPoint where
  x : Int
  y : Int
  z : Int
  offset_time : Nat
deriving DecidableEq, Repr

/-- The parts of a `livox_ros_driver2::CustomMsg` the callback reads. -/
structure CustomMsg where
  timebase : Nat
  frame_id : String
  points : List CustomPoint
deriving DecidableEq, Repr

/-- Two's-complement wrap into the signed 32-bit range, modelling the
source's `static_cast<int32_t>(time_offset * 1000000000.0)`.  For values
outside the `int32_t` range the C++ cast from floating point is
undefined behaviour; the wrap is one concrete resolution, and the
counterexample below holds under any resolution, since every `int32_t`
value differs from the out-of-range exact offset. -/
def toInt32 (n : Int) : Int := (n + 2147483648) % 4294967296 - 2147483648

/-- `PointcloudInputHandler::callback(livox_ros_driver2::CustomMsg)`
(source lines 90-114): reject empty messages without touching the queue;
otherwise push one cloud whose timebase is
`msg.timebase + static_cast<int32_t>(time_offset * 1e9)` evaluated in
unsigned 64-bit arithmetic, whose frame is the configured override when
non-empty, and whose points keep their per-point `offset_time`. -/
def callbackLivox (cfg : Config) (m : CustomMsg)
    (queue : List GenericStampedPointcloud) :
    List GenericStampedPointcloud :=
  if m.points.isEmpty then queue
  else
    let stamp_nsec :=
      (((m.timebase : Int) + toInt32 cfg.timeOffsetNs) % 18446744073709551616).toNat
    let frame := if cfg.sensor_frame_id = "" then m.frame_id
                 else cfg.sensor_frame_id
    queue ++ [{ timebase := stamp_nsec, sensor_frame := frame,
                points := m.points.map
                  (fun p => ⟨(p.x, p.y, p.z), p.offset_time⟩) }]

/-- Modelled from the spec: the deferral test as §5 and §4.2 describe it,
comparing the oldest pending cloud's relevant time boundary against the
newest timestamp the pose source currently has buffered (the transform
buffer's `newestBufferedTimestamp`, not anything in the ingestion
queue). -/
def specDeferDecision (cfg : Config) (newestBuffered boundary : Int) : Bool :=
  newestBuffered - boundary < cfg.maxWaitForPoseNs

/-! Concrete sample data used by the closed witness and counterexample
theorems below. -/

/-- A sample environment: the undistorter's outcome is keyed on the
cloud's frame name, the transform lookup succeeds only for frame
"lidar", and three integrators are registered. -/
def sampleEnv : Env where
  undistort c :=
    if c.sensor_frame = "endwait" then .error .endTimeNotInTfBuffer
    else if c.sensor_frame = "startmiss" then .error .startTimeNotInTfBuffer
    else .ok ⟨⟨7⟩, c.points.map GenericPoint.position⟩
  lookupTransform f _ := if f = "lidar" then some ⟨3⟩ else none
  integrators := [10, 20, 30]
  shouldPublishReprojected := true
  shouldPublishRange := false
  rangeImageAvailable := false
  newestBufferedTimestamp := 150

/-- Sample configuration with undistortion on and a 0.5 s wait bound. -/
def cfgUndistort : Config := ⟨500000000, 0, true, ""⟩

/-- Sample configuration with undistortion off and a 0.5 s wait bound. -/
def cfgDirect : Config := ⟨500000000, 0, false, ""⟩

/-- Sample cloud whose end pose stays unavailable (frame "endwait"). -/
def cloudA : GenericStampedPointcloud := ⟨100, "endwait", [⟨(1, 2, 3), 100⟩]⟩

/-- Sample cloud that the undistorter resolves. -/
def cloudB : GenericStampedPointcloud := ⟨300, "good", [⟨(4, 5, 6), 0⟩]⟩

/-- Second resolvable sample cloud, enqueued after `cloudB`. -/
def cloudB2 : GenericStampedPointcloud := ⟨400, "good", [⟨(8, 9, 10), 0⟩]⟩

/-- Sample cloud whose start pose has been evicted (frame "startmiss"). -/
def cloudS : GenericStampedPointcloud := ⟨50, "startmiss", []⟩

/-- Sample cloud whose direct pose lookup succeeds (frame "lidar"). -/
def cloudL : GenericStampedPointcloud := ⟨300, "lidar", [⟨(4, 5, 6), 0⟩]⟩

/-- Sample cloud whose direct pose lookup fails (frame "nolidar"). -/
def cloudN : GenericStampedPointcloud := ⟨100, "nolidar", []⟩

/-- Sample cloud enqueued much later (timebase 1000 s), so that the head
cloud's wait bound is exceeded relative to the back of the queue. -/
def cloudFar : GenericStampedPointcloud := ⟨1000000000000, "endwait", []⟩

/-- Head cloud of the claim C3 counterexample: end time 100 ns. -/
def c3Head : GenericStampedPointcloud := ⟨0, "endwait", [⟨(0, 0, 0), 100⟩]⟩

/-- Back-of-queue cloud of the claim C3 counterexample: timebase 1000 s,
far newer than both the head's end time and the transform buffer's newest
stamp. -/
def c3Tail : GenericStampedPointcloud := ⟨1000000000000, "endwait", []⟩

/-- Configuration whose fixed time offset is 3 s = 3000000000 ns, outside
the `int32_t` range; 3.0 and 3.0e9 are exactly representable in the
source's float and double types, so the modelled exact conversion agrees
with the source's arithmetic up to the `int32_t` cast itself. -/
def cfgBigOffset : Config := ⟨500000000, 3000000000, true, ""⟩

/-- A non-empty Livox message with timebase 0. -/
def livoxMsg7 : CustomMsg := ⟨0, "lidar", [⟨1, 2, 3, 0⟩]⟩

/-- Configuration whose fixed time offset is 1 s = 1000000000 ns, inside
the `int32_t` range. -/
def cfgOffset1s : Config := ⟨500000000, 1000000000, true, ""⟩

/-- A non-empty Livox message with timebase 2000 ns. -/
def livoxMsg1s : CustomMsg := ⟨2000, "livox", [⟨1, 1, 1, 5⟩]⟩

/-- A non-empty `PointCloud2` message whose only field is "x": the claim
C10 counterexample. -/
def msgXOnly : PointCloud2 := ⟨1, 1, 0, "f", [⟨"x"⟩], [(0, 0, 0)]⟩

/-- A non-empty `PointCloud2` message whose fields are "x" then "y", so
the validation's second follow-up access is past the end. -/
def msgXY : PointCloud2 := ⟨1, 1, 0, "f", [⟨"x"⟩, ⟨"y"⟩], [(0, 0, 0)]⟩

/-- A well-formed `PointCloud2` message with fields "x", "y", "z". -/
def msgXYZ : PointCloud2 :=
  ⟨1, 2, 500, "cam", [⟨"x"⟩, ⟨"y"⟩, ⟨"z"⟩], [(1, 1, 1), (2, 2, 2)]⟩

/-! Branch-unfolding lemmas for `processQueue`, one per arm of the
dispatcher loop.  Claim theorems are assembled from these. -/

theorem processQueue_nil (env : Env) (cfg : Config) :
    processQueue env cfg [] = ([], []) := rfl

theorem processQueue_stall_end (env : Env) (cfg : Config)
    (o : GenericStampedPointcloud) (rest : List GenericStampedPointcloud)
    (hu : cfg.undistort_motion = true)
    (he : env.undistort o = .error UndistortError.endTimeNotInTfBuffer)
    (hw : ((rest.getLastD o).getTimeBase : Int) - (o.getEndTime : Int) <
      cfg.maxWaitForPoseNs) :
    processQueue env cfg (o :: rest) = (o :: rest, []) := by
  simp only [processQueue, hu, he, if_true]
  rw [if_pos hw]

theorem processQueue_drop_end (env : Env) (cfg : Config)
    (o : GenericStampedPointcloud) (rest : List GenericStampedPointcloud)
    (hu : cfg.undistort_motion = true)
    (he : env.undistort o = .error UndistortError.endTimeNotInTfBuffer)
    (hw : ¬ ((rest.getLastD o).getTimeBase : Int) - (o.getEndTime : Int) <
      cfg.maxWaitForPoseNs) :
    processQueue env cfg (o :: rest) =
      ((processQueue env cfg rest).1,
        Event.pop o :: (processQueue env cfg rest).2) := by
  simp only [processQueue, hu, he, if_true]
  rw [if_neg hw]

theorem processQueue_drop_start (env : Env) (cfg : Config)
    (o : GenericStampedPointcloud) (rest : List GenericStampedPointcloud)
    (hu : cfg.undistort_motion = true)
    (he : env.undistort o = .error UndistortError.startTimeNotInTfBuffer) :
    processQueue env cfg (o :: rest) =
      ((processQueue env cfg rest).1,
        Event.pop o :: (processQueue env cfg rest).2) := by
  simp only [processQueue, hu, he, if_true]

theorem processQueue_drop_intermediate (env : Env) (cfg : Config)
    (o : GenericStampedPointcloud) (rest : List GenericStampedPointcloud)
    (hu : cfg.undistort_motion = true)
    (he : env.undistort o =
      .error UndistortError.intermediateTimeNotInTfBuffer) :
    processQueue env cfg (o :: rest) =
      ((processQueue env cfg rest).1,
        Event.pop o :: (processQueue env cfg rest).2) := by
  simp only [processQueue, hu, he, if_true]

theorem processQueue_drop_unknown (env : Env) (cfg : Config)
    (o : GenericStampedPointcloud) (rest : List GenericStampedPointcloud)
    (hu : cfg.undistort_motion = true)
    (he : env.undistort o = .error UndistortError.unknown) :
    processQueue env cfg (o :: rest) =
      ((processQueue env cfg rest).1,
        Event.pop o :: (processQueue env cfg rest).2) := by
  simp only [processQueue, hu, he, if_true]

theorem processQueue_success_undistort (env : Env) (cfg : Config)
    (o : GenericStampedPointcloud) (rest : List GenericStampedPointcloud)
    (pc : PosedPointcloud)
    (hu : cfg.undistort_motion = true)
    (he : env.undistort o = .ok pc) :
    processQueue env cfg (o :: rest) =
      ((processQueue env cfg rest).1,
        successEvents env o pc ++ (processQueue env cfg rest).2) := by
  simp only [processQueue, hu, he, if_true]

theorem processQueue_success_direct (env : Env) (cfg : Config)
    (o : GenericStampedPointcloud) (rest : List GenericStampedPointcloud)
    (pose : Pose)
    (hu : cfg.undistort_motion = false)
    (hl : env.lookupTransform o.getSensorFrame o.getTimeBase = some pose) :
    processQueue env cfg (o :: rest) =
      ((processQueue env cfg rest).1,
        successEvents env o ⟨pose, o.points.map GenericPoint.position⟩ ++
          (processQueue env cfg rest).2) := by
  simp only [processQueue, hu, hl, Bool.false_eq_true, if_false]

theorem processQueue_stall_direct (env : Env) (cfg : Config)
    (o : GenericStampedPointcloud) (rest : List GenericStampedPointcloud)
    (hu : cfg.undistort_motion = false)
    (hl : env.lookupTransform o.getSensorFrame o.getTimeBase = none)
    (hw : ((rest.getLastD o).getTimeBase : Int) - (o.getTimeBase : Int) <
      cfg.maxWaitForPoseNs) :
    processQueue env cfg (o :: rest) = (o :: rest, []) := by
  simp only [processQueue, hu, hl, Bool.false_eq_true, if_false]
  rw [if_pos hw]

theorem processQueue_drop_direct (env : Env) (cfg : Config)
    (o : GenericStampedPointcloud) (rest : List GenericStampedPointcloud)
    (hu : cfg.undistort_motion = false)
    (hl : env.lookupTransform o.getSensorFrame o.getTimeBase = none)
    (hw : ¬ ((rest.getLastD o).getTimeBase : Int) - (o.getTimeBase : Int) <
      cfg.maxWaitForPoseNs) :
    processQueue env cfg (o :: rest) =
      ((processQueue env cfg rest).1,
        Event.pop o :: (processQueue env cfg rest).2) := by
  simp only [processQueue, hu, hl, Bool.false_eq_true, if_false]
  rw [if_neg hw]

/-- Claim C1: for every queue whose head cloud's pose resolution yields
the retryable outcome (undistortion returns `kEndTimeNotInTfBuffer`, or
with undistortion disabled the direct lookup at the timebase fails) while
the retry bound has not elapsed, `processQueue` returns without popping or
integrating anything, the queue is unchanged, and this persists over
arbitrarily many repeated invocations. -/
theorem c1_retryable_stall (env : Env) (cfg : Config)
    (o : GenericStampedPointcloud) (rest : List GenericStampedPointcloud)
    (n : Nat)
    (h : (cfg.undistort_motion = true ∧
          env.undistort o = .error UndistortError.endTimeNotInTfBuffer ∧
          ((rest.getLastD o).getTimeBase : Int) - (o.getEndTime : Int) <
            cfg.maxWaitForPoseNs)
       ∨ (cfg.undistort_motion = false ∧
          env.lookupTransform o.getSensorFrame o.getTimeBase = none ∧
          ((rest.getLastD o).getTimeBase : Int) - (o.getTimeBase : Int) <
            cfg.maxWaitForPoseNs)) :
    processQueue env cfg (o :: rest) = (o :: rest, []) ∧
      (drainOnce env cfg)^[n] (o :: rest) = o :: rest := by
  have hstep : processQueue env cfg (o :: rest) = (o :: rest, []) := by
    rcases h with ⟨hu, he, hw⟩ | ⟨hu, hl, hw⟩
    · exact processQueue_stall_end env cfg o rest hu he hw
    · exact processQueue_stall_direct env cfg o rest hu hl hw
  refine ⟨hstep, ?_⟩
  induction n with
  | zero => rfl
  | succ k ih =>
    rw [Function.iterate_succ_apply', ih, drainOnce, hstep]

/-- Witness for claim C1 at a concrete two-cloud queue, in both the
undistortion and the direct-lookup configuration. -/
theorem c1_retryable_stall_witness :
    (sampleEnv.undistort cloudA =
        .error UndistortError.endTimeNotInTfBuffer ∧
      (([cloudB].getLastD cloudA).getTimeBase : Int) -
          (cloudA.getEndTime : Int) < cfgUndistort.maxWaitForPoseNs ∧
      processQueue sampleEnv cfgUndistort [cloudA, cloudB] =
        ([cloudA, cloudB], []) ∧
      (drainOnce sampleEnv cfgUndistort)^[5] [cloudA, cloudB] =
        [cloudA, cloudB]) ∧
    (sampleEnv.lookupTransform cloudN.getSensorFrame cloudN.getTimeBase =
        none ∧
      processQueue sampleEnv cfgDirect [cloudN] = ([cloudN], []) ∧
      (drainOnce sampleEnv cfgDirect)^[3] [cloudN] = [cloudN]) := by
  have h1 := c1_retryable_stall sampleEnv cfgUndistort cloudA [cloudB] 5
    (Or.inl ⟨rfl, by decide, by decide⟩)
  have h2 := c1_retryable_stall sampleEnv cfgDirect cloudN [] 3
    (Or.inr ⟨rfl, by decide, by decide⟩)
  exact ⟨⟨by decide, by decide, h1.1, h1.2⟩, ⟨by decide, h2.1, h2.2⟩⟩

/-- Claim C5: with undistortion enabled, a `kStartTimeNotInTfBuffer`
outcome pops and drops the head cloud in the same invocation for every
configured wait bound, while a `kEndTimeNotInTfBuffer` outcome is
deferred (queue untouched) as long as the wait bound is not exceeded. -/
theorem c5_start_drops_end_defers (env : Env) (cfg : Config)
    (o : GenericStampedPointcloud) (rest : List GenericStampedPointcloud)
    (hu : cfg.undistort_motion = true) :
    (env.undistort o = .error UndistortError.startTimeNotInTfBuffer →
      processQueue env cfg (o :: rest) =
        ((processQueue env cfg rest).1,
          Event.pop o :: (processQueue env cfg rest).2)) ∧
    (env.undistort o = .error UndistortError.endTimeNotInTfBuffer →
      ((rest.getLastD o).getTimeBase : Int) - (o.getEndTime : Int) <
        cfg.maxWaitForPoseNs →
      processQueue env cfg (o :: rest) = (o :: rest, [])) :=
  ⟨fun he => processQueue_drop_start env cfg o rest hu he,
   fun he hw => processQueue_stall_end env cfg o rest hu he hw⟩

/-- Witness for claim C5: a start-pose failure is dropped at once even
with a wait bound of 0.5 s, while an end-pose failure within the bound
stalls the very same configuration. -/
theorem c5_start_drops_end_defers_witness :
    (sampleEnv.undistort cloudS =
        .error UndistortError.startTimeNotInTfBuffer ∧
      processQueue sampleEnv cfgUndistort [cloudS] =
        ((processQueue sampleEnv cfgUndistort []).1,
          Event.pop cloudS :: (processQueue sampleEnv cfgUndistort []).2)) ∧
    (sampleEnv.undistort cloudA =
        .error UndistortError.endTimeNotInTfBuffer ∧
      processQueue sampleEnv cfgUndistort [cloudA, cloudB] =
        ([cloudA, cloudB], [])) := by
  have h1 := c5_start_drops_end_defers sampleEnv cfgUndistort cloudS [] rfl
  have h2 := c5_start_drops_end_defers sampleEnv cfgUndistort cloudA [cloudB] rfl
  exact ⟨⟨by decide, h1.1 (by decide)⟩,
         ⟨by decide, h2.2 (by decide) (by decide)⟩⟩

/-- Claim C6: once the retryable wait bound has elapsed and the head
cloud's pose is still unavailable, `processQueue` pops exactly that one
cloud and continues with the next queued cloud within the same
invocation (the invocation's result is the pop of the head followed by
the processing of the remaining queue). -/
theorem c6_bound_elapsed_drops_once (env : Env) (cfg : Config)
    (o : GenericStampedPointcloud) (rest : List GenericStampedPointcloud)
    (h : (cfg.undistort_motion = true ∧
          env.undistort o = .error UndistortError.endTimeNotInTfBuffer ∧
          ¬ ((rest.getLastD o).getTimeBase : Int) - (o.getEndTime : Int) <
            cfg.maxWaitForPoseNs)
       ∨ (cfg.undistort_motion = false ∧
          env.lookupTransform o.getSensorFrame o.getTimeBase = none ∧
          ¬ ((rest.getLastD o).getTimeBase : Int) - (o.getTimeBase : Int) <
            cfg.maxWaitForPoseNs)) :
    processQueue env cfg (o :: rest) =
      ((processQueue env cfg rest).1,
        Event.pop o :: (processQueue env cfg rest).2) := by
  rcases h with ⟨hu, he, hw⟩ | ⟨hu, hl, hw⟩
  · exact processQueue_drop_end env cfg o rest hu he hw
  · exact processQueue_drop_direct env cfg o rest hu hl hw

/-- Witness for claim C6: the back of the queue is 1000 s newer than the
head's end time, exceeding the 0.5 s bound, so the head alone is dropped
and the rest of the queue is processed in the same invocation. -/
theorem c6_bound_elapsed_drops_once_witness :
    sampleEnv.undistort cloudA =
      .error UndistortError.endTimeNotInTfBuffer ∧
    ¬ (([cloudFar].getLastD cloudA).getTimeBase : Int) -
        (cloudA.getEndTime : Int) < cfgUndistort.maxWaitForPoseNs ∧
    processQueue sampleEnv cfgUndistort [cloudA, cloudFar] =
      ((processQueue sampleEnv cfgUndistort [cloudFar]).1,
        Event.pop cloudA ::
          (processQueue sampleEnv cfgUndistort [cloudFar]).2) := by
  exact ⟨by decide, by decide,
    c6_bound_elapsed_drops_once sampleEnv cfgUndistort cloudA [cloudFar]
      (Or.inl ⟨rfl, by decide, by decide⟩)⟩

/-- Claim C2: for every queue all of whose clouds resolve to a pose, one
`processQueue` invocation produces exactly the concatenation, in enqueue
order, of each cloud's success trace (its integrator calls, debug
publications and pop), and leaves the queue empty; in particular every
cloud is passed to the integrators before any later-enqueued cloud. -/
theorem c2_all_resolvable_drains_in_order (env : Env) (cfg : Config)
    (q : List GenericStampedPointcloud)
    (hres : ∀ c ∈ q, (resolvePose? env cfg c).isSome = true) :
    processQueue env cfg q =
      ([], q.flatMap (fun c =>
        (resolvePose? env cfg c).elim [] (successEvents env c))) := by
  induction q with
  | nil => rfl
  | cons o rest ih =>
    have ho := hres o (List.mem_cons_self o rest)
    have hrec := ih (fun c hc => hres c (List.mem_cons_of_mem o hc))
    by_cases hu : cfg.undistort_motion = true
    · cases he : env.undistort o with
      | ok pc =>
        rw [processQueue_success_undistort env cfg o rest pc hu he, hrec]
        simp [List.flatMap_cons, resolvePose?, hu, he]
      | error e =>
        exfalso
        unfold resolvePose? at ho
        rw [if_pos hu, he] at ho
        simp at ho
    · have hu' : cfg.undistort_motion = false := by simpa using hu
      cases hl : env.lookupTransform o.getSensorFrame o.getTimeBase with
      | some pose =>
        rw [processQueue_success_direct env cfg o rest pose hu' hl, hrec]
        simp [List.flatMap_cons, resolvePose?, hu', hl]
      | none =>
        exfalso
        unfold resolvePose? at ho
        rw [if_neg hu, hl] at ho
        simp at ho

/-- Witness for claim C2 at a concrete two-cloud queue: both clouds
resolve, the queue ends empty, and the trace is cloud B's block followed
by cloud B2's block. -/
theorem c2_all_resolvable_drains_in_order_witness :
    (∀ c ∈ [cloudB, cloudB2],
      (resolvePose? sampleEnv cfgUndistort c).isSome = true) ∧
    processQueue sampleEnv cfgUndistort [cloudB, cloudB2] =
      ([], [cloudB, cloudB2].flatMap (fun c =>
        (resolvePose? sampleEnv cfgUndistort c).elim []
          (successEvents sampleEnv c))) := by
  exact ⟨by decide,
    c2_all_resolvable_drains_in_order sampleEnv cfgUndistort
      [cloudB, cloudB2] (by decide)⟩

/-- Claim C8: for every cloud that resolves to a posed cloud, the
invocation's trace for that cloud is one `integrate` per registered
integrator, in registration order, followed by the debug publications and
only then the pop — all before any event of the next cloud. -/
theorem c8_integrate_each_in_registration_order (env : Env) (cfg : Config)
    (o : GenericStampedPointcloud) (rest : List GenericStampedPointcloud)
    (pc : PosedPointcloud)
    (h : resolvePose? env cfg o = some pc) :
    processQueue env cfg (o :: rest) =
      ((processQueue env cfg rest).1,
        (env.integrators.map (fun i => Event.integrate i pc) ++
          (debugEvents env pc ++ [Event.pop o])) ++
            (processQueue env cfg rest).2) := by
  unfold resolvePose? at h
  by_cases hu : cfg.undistort_motion = true
  · rw [if_pos hu] at h
    cases he : env.undistort o with
    | ok pcOut =>
      rw [he] at h
      obtain rfl : pcOut = pc := by simpa using h
      rw [processQueue_success_undistort env cfg o rest pcOut hu he]
      simp [successEvents, List.append_assoc]
    | error e =>
      rw [he] at h
      simp at h
  · have hu' : cfg.undistort_motion = false := by simpa using hu
    rw [if_neg hu] at h
    cases hl : env.lookupTransform o.getSensorFrame o.getTimeBase with
    | some pose =>
      rw [hl] at h
      obtain rfl : (⟨pose, o.points.map GenericPoint.position⟩ :
          PosedPointcloud) = pc := by simpa using h
      rw [processQueue_success_direct env cfg o rest pose hu' hl]
      simp [successEvents, List.append_assoc]
    | none =>
      rw [hl] at h
      simp at h

/-- Witness for claim C8: the three registered integrators of the sample
environment each receive the resolved cloud exactly once, in registration
order, before the debug publication and the pop. -/
theorem c8_integrate_each_in_registration_order_witness :
    resolvePose? sampleEnv cfgUndistort cloudB =
      some ⟨⟨7⟩, [(4, 5, 6)]⟩ ∧
    processQueue sampleEnv cfgUndistort [cloudB] =
      ((processQueue sampleEnv cfgUndistort []).1,
        (sampleEnv.integrators.map
            (fun i => Event.integrate i ⟨⟨7⟩, [(4, 5, 6)]⟩) ++
          (debugEvents sampleEnv ⟨⟨7⟩, [(4, 5, 6)]⟩ ++
            [Event.pop cloudB])) ++
          (processQueue sampleEnv cfgUndistort []).2) := by
  exact ⟨by decide,
    c8_integrate_each_in_registration_order sampleEnv cfgUndistort cloudB []
      ⟨⟨7⟩, [(4, 5, 6)]⟩ (by decide)⟩

/-- Claim C9: with undistortion disabled, the dispatcher performs a single
direct lookup at the head cloud's timebase; on success it integrates a
posed cloud bound to that one pose whose points are the queued cloud's
positions, unmodified and in order; on failure it applies the bounded-wait
policy: defer while the bound is not exceeded, else pop and continue. -/
theorem c9_direct_lookup_same_policy (env : Env) (cfg : Config)
    (o : GenericStampedPointcloud) (rest : List GenericStampedPointcloud)
    (hu : cfg.undistort_motion = false) :
    (∀ pose, env.lookupTransform o.getSensorFrame o.getTimeBase = some pose →
      processQueue env cfg (o :: rest) =
        ((processQueue env cfg rest).1,
          successEvents env o ⟨pose, o.points.map GenericPoint.position⟩ ++
            (processQueue env cfg rest).2)) ∧
    (env.lookupTransform o.getSensorFrame o.getTimeBase = none →
      (((rest.getLastD o).getTimeBase : Int) - (o.getTimeBase : Int) <
          cfg.maxWaitForPoseNs →
        processQueue env cfg (o :: rest) = (o :: rest, [])) ∧
      (¬ ((rest.getLastD o).getTimeBase : Int) - (o.getTimeBase : Int) <
          cfg.maxWaitForPoseNs →
        processQueue env cfg (o :: rest) =
          ((processQueue env cfg rest).1,
            Event.pop o :: (processQueue env cfg rest).2))) :=
  ⟨fun pose hl => processQueue_success_direct env cfg o rest pose hu hl,
   fun hl => ⟨fun hw => processQueue_stall_direct env cfg o rest hu hl hw,
              fun hw => processQueue_drop_direct env cfg o rest hu hl hw⟩⟩

/-- Witness for claim C9: a successful direct lookup binds the queued
points, unmodified and in order, to the looked-up pose, and a failed
lookup within the bound stalls the queue. -/
theorem c9_direct_lookup_same_policy_witness :
    (sampleEnv.lookupTransform cloudL.getSensorFrame cloudL.getTimeBase =
        some ⟨3⟩ ∧
      processQueue sampleEnv cfgDirect [cloudL] =
        ((processQueue sampleEnv cfgDirect []).1,
          successEvents sampleEnv cloudL
              ⟨⟨3⟩, cloudL.points.map GenericPoint.position⟩ ++
            (processQueue sampleEnv cfgDirect []).2)) ∧
    (sampleEnv.lookupTransform cloudN.getSensorFrame cloudN.getTimeBase =
        none ∧
      processQueue sampleEnv cfgDirect [cloudN] = ([cloudN], [])) := by
  have h1 := c9_direct_lookup_same_policy sampleEnv cfgDirect cloudL [] rfl
  have h2 := c9_direct_lookup_same_policy sampleEnv cfgDirect cloudN [] rfl
  exact ⟨⟨by decide, h1.1 ⟨3⟩ (by decide)⟩,
         ⟨by decide, (h2.2 (by decide)).1 (by decide)⟩⟩

/-- Counterexample to claim C3: the code's deferral decision does not
compare against the newest timestamp the pose source has buffered.  Here
the transform buffer's newest stamp (150 ns) is within the 0.5 s bound of
the head's end time (100 ns), so the claimed rule would defer; but the
code compares against the back of the ingestion queue (timebase 1000 s),
finds the bound exceeded, and pops the head. -/
theorem c3_counterexample_pose_source_not_consulted :
    specDeferDecision cfgUndistort sampleEnv.newestBufferedTimestamp
      (c3Head.getEndTime : Int) = true ∧
    sampleEnv.undistort c3Head =
      .error UndistortError.endTimeNotInTfBuffer ∧
    processQueue sampleEnv cfgUndistort [c3Head, c3Tail] =
      ([c3Tail], [Event.pop c3Head]) := by
  decide

/-- Claim C3 as amended: for a retryable pose-unavailability outcome, the
deferral decision compares the oldest pending cloud's relevant boundary
(end time with undistortion, timebase without) against the timebase of the
newest cloud in the ingestion queue (its back) — not against the pose
source's newest buffered timestamp — and defers exactly when that
difference is smaller than the configured bound. -/
theorem c3_amended_defer_iff_queue_back (env : Env) (cfg : Config)
    (o : GenericStampedPointcloud) (rest : List GenericStampedPointcloud) :
    (cfg.undistort_motion = true →
      env.undistort o = .error UndistortError.endTimeNotInTfBuffer →
      (processQueue env cfg (o :: rest) = (o :: rest, []) ↔
        ((rest.getLastD o).getTimeBase : Int) - (o.getEndTime : Int) <
          cfg.maxWaitForPoseNs)) ∧
    (cfg.undistort_motion = false →
      env.lookupTransform o.getSensorFrame o.getTimeBase = none →
      (processQueue env cfg (o :: rest) = (o :: rest, []) ↔
        ((rest.getLastD o).getTimeBase : Int) - (o.getTimeBase : Int) <
          cfg.maxWaitForPoseNs)) := by
  constructor
  · intro hu he
    constructor
    · intro heq
      by_contra hw
      rw [processQueue_drop_end env cfg o rest hu he hw] at heq
      have hsnd := congrArg Prod.snd heq
      simp at hsnd
    · intro hw
      exact processQueue_stall_end env cfg o rest hu he hw
  · intro hu hl
    constructor
    · intro heq
      by_contra hw
      rw [processQueue_drop_direct env cfg o rest hu hl hw] at heq
      have hsnd := congrArg Prod.snd heq
      simp at hsnd
    · intro hw
      exact processQueue_stall_direct env cfg o rest hu hl hw

/-- Witness for the amended claim C3 at a concrete queue: deferral is
equivalent to the back-of-queue comparison, and here both sides hold. -/
theorem c3_amended_defer_iff_queue_back_witness :
    cfgUndistort.undistort_motion = true ∧
    sampleEnv.undistort cloudA =
      .error UndistortError.endTimeNotInTfBuffer ∧
    (processQueue sampleEnv cfgUndistort [cloudA, cloudB] =
        ([cloudA, cloudB], []) ↔
      (([cloudB].getLastD cloudA).getTimeBase : Int) -
          (cloudA.getEndTime : Int) < cfgUndistort.maxWaitForPoseNs) := by
  exact ⟨rfl, by decide,
    (c3_amended_defer_iff_queue_back sampleEnv cfgUndistort cloudA
      [cloudB]).1 rfl (by decide)⟩

/-- Every execution that the explicit-partiality embedding of the
`PointCloud2` callback defines agrees with the total model
`callbackPointCloud2`: the total model is exactly the defined executions,
and the two differ only where the C++ is undefined. -/
theorem callbackPointCloud2Checked_agrees (cfg : Config) (m : PointCloud2)
    (q r : List GenericStampedPointcloud)
    (h : callbackPointCloud2Checked cfg m q = some r) :
    callbackPointCloud2 cfg m q = r := by
  unfold callbackPointCloud2Checked at h
  unfold callbackPointCloud2
  by_cases h0 : m.height * m.width = 0
  · rw [if_pos h0] at h
    rw [if_pos h0]
    exact Option.some_inj.mp h
  · rw [if_neg h0] at h
    rw [if_neg h0]
    cases hx : xFieldIdx? m with
    | none =>
      simp only [hx] at h
      have hv : validFieldLayout m = false := by
        unfold validFieldLayout
        rw [hx]
      rw [if_pos hv]
      exact Option.some_inj.mp h
    | some i =>
      simp only [hx] at h
      cases h1 : m.fields[i + 1]? with
      | none =>
        simp only [h1] at h
        exact Option.noConfusion h
      | some fy =>
        simp only [h1] at h
        by_cases hy : fy.name = "y"
        · rw [if_pos hy] at h
          cases h2 : m.fields[i + 2]? with
          | none =>
            simp only [h2] at h
            exact Option.noConfusion h
          | some fz =>
            simp only [h2] at h
            by_cases hz : fz.name = "z"
            · rw [if_pos hz] at h
              have hv : validFieldLayout m = true := by
                simp [validFieldLayout, hx, h1, h2, hy, hz]
              rw [if_neg (by simp [hv])]
              exact Option.some_inj.mp h
            · rw [if_neg hz] at h
              have hv : validFieldLayout m = false := by
                simp [validFieldLayout, hx, h1, h2, hz]
              rw [if_pos hv]
              exact Option.some_inj.mp h
        · rw [if_neg hy] at h
          have hv : validFieldLayout m = false := by
            cases h2 : m.fields[i + 2]? <;>
              simp [validFieldLayout, hx, h1, h2, hy]
          rw [if_pos hv]
          exact Option.some_inj.mp h

/-- Claim C4 fails on the code (code bug): the non-empty `PointCloud2`
message whose only field is "x", and the one with fields "x" then "y",
are field-invalid, yet instead of the claimed warn-and-return the
callback's execution reaches a field access past the end of `fields` —
the source dereferences `(++x_field_iter)` beyond `fields.end()`,
undefined behaviour that can be a fatal error — so in the
explicit-partiality embedding these executions have no defined result.
For empty messages, and for field-invalid messages whose checks stay in
bounds, the rejection is defined and leaves the queue unchanged. -/
theorem c4_callback_reaches_out_of_bounds :
    (msgXOnly.height * msgXOnly.width ≠ 0 ∧
      validFieldLayout msgXOnly = false ∧
      callbackPointCloud2Checked cfgUndistort msgXOnly [cloudB] = none) ∧
    (msgXY.height * msgXY.width ≠ 0 ∧
      validFieldLayout msgXY = false ∧
      callbackPointCloud2Checked cfgUndistort msgXY [cloudB] = none) ∧
    (callbackPointCloud2Checked cfgUndistort
        ⟨0, 5, 9, "cam", [⟨"x"⟩, ⟨"y"⟩, ⟨"z"⟩], []⟩ [cloudB] =
      some [cloudB]) ∧
    (callbackPointCloud2Checked cfgUndistort
        ⟨1, 1, 9, "cam", [⟨"x"⟩, ⟨"z"⟩, ⟨"y"⟩], [(0, 0, 0)]⟩ [cloudB] =
      some [cloudB]) ∧
    callbackLivox cfgUndistort ⟨44, "livox", []⟩ [cloudB] = [cloudB] := by
  decide

/-- Values inside the signed 32-bit range pass through the modelled
`static_cast<int32_t>` unchanged. -/
theorem toInt32_eq_self (n : Int) (h1 : -2147483648 ≤ n)
    (h2 : n < 2147483648) : toInt32 n = n := by
  unfold toInt32
  rw [Int.emod_eq_of_lt (by omega) (by omega)]
  omega

/-- Counterexample to claim C7: with a configured offset of 3 s
(3000000000 ns, exactly representable in the source's float arithmetic
but outside the `int32_t` range), the Livox callback accepts the message
yet the enqueued cloud's timebase is not the native timestamp plus the
offset, because the source casts the offset to `int32_t` first. -/
theorem c7_counterexample_livox_offset_truncated :
    cfgBigOffset.timeOffsetNs = 3000000000 ∧
    livoxMsg7.timebase = 0 ∧
    (callbackLivox cfgBigOffset livoxMsg7 []).length = 1 ∧
    (callbackLivox cfgBigOffset livoxMsg7 []).map
        GenericStampedPointcloud.getTimeBase ≠ [3000000000] := by
  decide

/-- Claim C7 as amended: for every accepted message the enqueued cloud's
timebase equals the native timestamp plus the configured offset in
nanoseconds, in both producer variants, provided the offset fits in the
signed 32-bit range (the Livox path casts it to `int32_t`) and the shifted
timestamps stay inside the representable time range. -/
theorem c7_amended_timebase_native_plus_offset (cfg : Config)
    (m : PointCloud2) (l : CustomMsg)
    (q r : List GenericStampedPointcloud)
    (h1 : -2147483648 ≤ cfg.timeOffsetNs)
    (h2 : cfg.timeOffsetNs < 2147483648)
    (hm : 0 ≤ (m.stamp_ns : Int) + cfg.timeOffsetNs)
    (hl0 : 0 ≤ (l.timebase : Int) + cfg.timeOffsetNs)
    (hl1 : (l.timebase : Int) + cfg.timeOffsetNs < 18446744073709551616) :
    ((callbackPointCloud2 cfg m q).map
        (fun c => (c.getTimeBase : Int)) =
          q.map (fun c => (c.getTimeBase : Int))
      ∨ (callbackPointCloud2 cfg m q).map
          (fun c => (c.getTimeBase : Int)) =
            q.map (fun c => (c.getTimeBase : Int)) ++
              [(m.stamp_ns : Int) + cfg.timeOffsetNs]) ∧
    ((callbackLivox cfg l r).map (fun c => (c.getTimeBase : Int)) =
        r.map (fun c => (c.getTimeBase : Int))
      ∨ (callbackLivox cfg l r).map (fun c => (c.getTimeBase : Int)) =
          r.map (fun c => (c.getTimeBase : Int)) ++
            [(l.timebase : Int) + cfg.timeOffsetNs]) := by
  constructor
  · by_cases h0 : m.height * m.width = 0
    · left
      unfold callbackPointCloud2
      rw [if_pos h0]
    · by_cases hv : validFieldLayout m = false
      · left
        unfold callbackPointCloud2
        rw [if_neg h0, if_pos hv]
      · right
        unfold callbackPointCloud2
        rw [if_neg h0, if_neg hv]
        simp [List.map_append, GenericStampedPointcloud.getTimeBase,
          Int.toNat_of_nonneg hm]
  · by_cases he : l.points.isEmpty = true
    · left
      unfold callbackLivox
      rw [if_pos he]
    · right
      unfold callbackLivox
      rw [if_neg he]
      simp only [List.map_append, List.map_cons, List.map_nil,
        GenericStampedPointcloud.getTimeBase]
      rw [toInt32_eq_self cfg.timeOffsetNs h1 h2,
        Int.emod_eq_of_lt hl0 hl1, Int.toNat_of_nonneg hl0]

/-- Witness for the amended claim C7: a 1 s offset (inside the `int32_t`
range) shifts both an accepted `PointCloud2` message and an accepted
Livox message by exactly 1000000000 ns. -/
theorem c7_amended_timebase_native_plus_offset_witness :
    cfgOffset1s.timeOffsetNs = 1000000000 ∧
    ((callbackPointCloud2 cfgOffset1s msgXYZ []).map
        (fun c => (c.getTimeBase : Int)) = []
      ∨ (callbackPointCloud2 cfgOffset1s msgXYZ []).map
          (fun c => (c.getTimeBase : Int)) =
            [] ++ [(msgXYZ.stamp_ns : Int) + cfgOffset1s.timeOffsetNs]) ∧
    ((callbackLivox cfgOffset1s livoxMsg1s []).map
        (fun c => (c.getTimeBase : Int)) = []
      ∨ (callbackLivox cfgOffset1s livoxMsg1s []).map
          (fun c => (c.getTimeBase : Int)) =
            [] ++ [(livoxMsg1s.timebase : Int) + cfgOffset1s.timeOffsetNs]) := by
  have h := c7_amended_timebase_native_plus_offset cfgOffset1s msgXYZ
    livoxMsg1s [] [] (by decide) (by decide) (by decide) (by decide)
    (by decide)
  exact ⟨rfl, h.1, h.2⟩

/-- Counterexample to claim C10: a message whose only field is "x"
contains an "x" field, yet the `Option`-returning lookups of the next two
fields both return `none` (the C++ iterator dereferences read out of
bounds there). -/
theorem c10_counterexample_x_last_field :
    xFieldIdx? msgXOnly = some 0 ∧
    fieldAfterX? msgXOnly 1 = none ∧
    fieldAfterX? msgXOnly 2 = none := by
  decide

/-- Claim C10 as amended: when the fields of a `PointCloud2` message
contain an "x" at index `i`, the validation's lookup of the field `k`
places later is within bounds exactly when `i + k` is still a valid
index — so the two accesses are in bounds iff at least two fields follow
"x", and out of bounds (returning `none`, which rejects the message) when
"x" is the last or second-to-last field. -/
theorem c10_amended_in_bounds_iff (m : PointCloud2) (i : Nat)
    (h : xFieldIdx? m = some i) :
    ((fieldAfterX? m 1).isSome = true ↔ i + 1 < m.fields.length) ∧
    ((fieldAfterX? m 2).isSome = true ↔ i + 2 < m.fields.length) := by
  have key : ∀ k, (fieldAfterX? m k).isSome = true ↔
      i + k < m.fields.length := by
    intro k
    have hk : fieldAfterX? m k = m.fields[i + k]? := by
      simp [fieldAfterX?, h]
    rw [hk, Option.isSome_iff_exists]
    constructor
    · rintro ⟨a, ha⟩
      exact (List.getElem?_eq_some.mp ha).1
    · intro hik
      exact ⟨m.fields[i + k], List.getElem?_eq_getElem hik⟩
  exact ⟨key 1, key 2⟩

/-- Witness for the amended claim C10 on a message with fields "x", "y",
"z": both follow-up lookups are within bounds, matching the index
characterization. -/
theorem c10_amended_in_bounds_iff_witness :
    xFieldIdx? msgXYZ = some 0 ∧
    (((fieldAfterX? msgXYZ 1).isSome = true ↔
        0 + 1 < msgXYZ.fields.length) ∧
      ((fieldAfterX? msgXYZ 2).isSome = true ↔
        0 + 2 < msgXYZ.fields.length)) := by
  exact ⟨by decide, c10_amended_in_bounds_iff msgXYZ 0 (by decide)⟩
